import Mathlib

/-!
Verification of the dnsx DNS client (stacksjs/dnsx) against its
natural-language specification.

Shallow embedding conventions:
- Node `Buffer` values are modelled as `List Nat` of byte values.
- JavaScript strings are modelled as `List Nat` of code units (all the data
  handled here is ASCII, one code unit per octet).
- An out-of-bounds single-byte read `buffer[i]` yields `undefined` in
  JavaScript; wherever the source then applies a numeric coercion
  (`undefined & m = 0`, `undefined > 0 = false`) we model the read with
  `List.getD _ _ 0`, which has exactly the coerced behaviour, or with
  `List.get?` plus an explicit coercion when the distinction matters.
- Node methods that raise (`readUInt16BE` past the end, `writeUInt16BE` out
  of range) are modelled in `Except String` with the check made explicit.
- Interpolated parts of thrown error messages are dropped; the constant part
  of each message is kept verbatim.

The source file ships two drafts of the wire codec (`DnsFlags`,
`DnsEncoder`, `DnsDecoder`, `buildQuery`, `parseResponse`).  Definitions
carrying suffix `1` embed the first draft, suffix `2` the second draft.
-/

/-- DNS header flags (both drafts declare the same fields with the same
defaults: all booleans false, opcode 0, responseCode 0). -/
structure DnsFlags where
  response : Bool := false
  opcode : Nat := 0
  authoritative : Bool := false
  truncated : Bool := false
  recursionDesired : Bool := false
  recursionAvailable : Bool := false
  authenticData : Bool := false
  checkingDisabled : Bool := false
  responseCode : Nat := 0
deriving Repr, DecidableEq

/-- First draft `DnsFlags.toBuffer`: builds a 16-bit word with shifts and
masks, then writes it big-endian (`writeUInt16BE`). -/
def DnsFlags.toBuffer1 (f : DnsFlags) : List Nat :=
  let flags : Nat :=
    (if f.response then 0x8000 else 0)
    ||| ((f.opcode &&& 0x0F) <<< 11)
    ||| (if f.authoritative then 0x0400 else 0)
    ||| (if f.truncated then 0x0200 else 0)
    ||| (if f.recursionDesired then 0x0100 else 0)
    ||| (if f.recursionAvailable then 0x0080 else 0)
    ||| (if f.authenticData then 0x0020 else 0)
    ||| (if f.checkingDisabled then 0x0010 else 0)
    ||| (f.responseCode &&& 0x000F)
  [(flags >>> 8) &&& 0xFF, flags &&& 0xFF]

/-- First draft `DnsFlags.fromBuffer`: `readUInt16BE(0)` then mask fields
out of the 16-bit word. -/
def DnsFlags.fromBuffer1 (buffer : List Nat) : DnsFlags :=
  let rawFlags : Nat := buffer.getD 0 0 * 256 + buffer.getD 1 0
  { response := (rawFlags &&& 0x8000) != 0
    opcode := (rawFlags &&& 0x7800) >>> 11
    authoritative := (rawFlags &&& 0x0400) != 0
    truncated := (rawFlags &&& 0x0200) != 0
    recursionDesired := (rawFlags &&& 0x0100) != 0
    recursionAvailable := (rawFlags &&& 0x0080) != 0
    authenticData := (rawFlags &&& 0x0020) != 0
    checkingDisabled := (rawFlags &&& 0x0010) != 0
    responseCode := rawFlags &&& 0x000F }

/-- Second draft `DnsFlags.toBuffer`: assembles the two octets directly with
per-byte ORs (`buffer[0] |= ...`, `buffer[1] |= ...`). -/
def DnsFlags.toBuffer2 (f : DnsFlags) : List Nat :=
  let b0 : Nat :=
    (if f.response then 0x80 else 0)
    ||| ((f.opcode &&& 0x0F) <<< 3)
    ||| (if f.authoritative then 0x04 else 0)
    ||| (if f.truncated then 0x02 else 0)
    ||| (if f.recursionDesired then 0x01 else 0)
  let b1 : Nat :=
    (if f.recursionAvailable then 0x80 else 0)
    ||| (if f.authenticData then 0x20 else 0)
    ||| (if f.checkingDisabled then 0x10 else 0)
    ||| (f.responseCode &&& 0x0F)
  [b0, b1]

/-- JavaScript `x & m` where `x` may be `undefined` (an out-of-range
`Buffer` read): `undefined` coerces to 0 under bitwise and. -/
def jsAnd (x : Option Nat) (m : Nat) : Nat := x.getD 0 &&& m

/-- Second draft `DnsFlags.fromBuffer`: reads `buffer[2]` and `buffer[3]`.
Note these indices are out of bounds for the two-octet buffers its own
callers hand it (`toBuffer` output, and the 2-byte slice made by the second
draft `readHeader`), in which case every read yields `undefined`. -/
def DnsFlags.fromBuffer2 (buffer : List Nat) : DnsFlags :=
  let byte1 : Option Nat := buffer.get? 2
  let byte2 : Option Nat := buffer.get? 3
  { response := jsAnd byte1 0x80 != 0
    opcode := (jsAnd byte1 0x78) >>> 3
    authoritative := jsAnd byte1 0x04 != 0
    truncated := jsAnd byte1 0x02 != 0
    recursionDesired := jsAnd byte1 0x01 != 0
    recursionAvailable := jsAnd byte2 0x80 != 0
    authenticData := jsAnd byte2 0x20 != 0
    checkingDisabled := jsAnd byte2 0x10 != 0
    responseCode := jsAnd byte2 0x0F }

/-- Modelled from the spec, section 4.1 Flag codec: byte0 bit7 = QR,
bits6..3 = OPCODE, bit2 = AA, bit1 = TC, bit0 = RD; byte1 bit7 = RA,
bit6 = Z(=0), bit5 = AD, bit4 = CD, bits3..0 = RCODE. -/
def flagLayoutSpec (f : DnsFlags) : List Nat :=
  [ (if f.response then 2 ^ 7 else 0) + f.opcode * 2 ^ 3
      + (if f.authoritative then 2 ^ 2 else 0)
      + (if f.truncated then 2 ^ 1 else 0)
      + (if f.recursionDesired then 1 else 0),
    (if f.recursionAvailable then 2 ^ 7 else 0) + 0 * 2 ^ 6
      + (if f.authenticData then 2 ^ 5 else 0)
      + (if f.checkingDisabled then 2 ^ 4 else 0)
      + f.responseCode ]

/-- A sample flags value with several bits set, used as concrete probe. -/
def c1Flags : DnsFlags :=
  { response := true, opcode := 3, authoritative := true, truncated := false
    recursionDesired := true, recursionAvailable := false
    authenticData := true, checkingDisabled := false, responseCode := 2 }

/-- Join name labels with dots, as `labels.join('.')` does. -/
def joinDots (labels : List (List Nat)) : List Nat :=
  List.intercalate [46] labels

/-- Decoded RDATA, one case per type handled by the source `readRData`.
The source renders A/AAAA/raw cases to strings; the model keeps the
numeric data those strings are printed from. -/
inductive RData where
  | ipv4 (octets : List Nat)
  | ipv6 (groups : List Nat)
  | mx (preference : Nat) (exchange : List Nat)
  | txt (s : List Nat)
  | domain (name : List Nat)
  | raw (bytes : List Nat)
deriving Repr, DecidableEq

structure DnsAnswerM where
  name : List Nat
  rtype : Nat
  qclass : Nat
  ttl : Nat
  data : RData
deriving Repr, DecidableEq

structure DnsResponseM where
  id : Nat
  flags : DnsFlags
  answers : List DnsAnswerM := []
  authorities : List DnsAnswerM := []
  additionals : List DnsAnswerM := []
deriving Repr, DecidableEq

/-! ### First-draft decoder (`DnsDecoder`, first copy in the source file)

Every reader takes the buffer and the current cursor and returns the value
with the new cursor, or the thrown error message. -/

/-- `canRead`: `this.offset + bytes <= this.buffer.length`. -/
def canRead (buffer : List Nat) (offset bytes : Nat) : Bool :=
  offset + bytes ≤ buffer.length

def readUint16_1 (buffer : List Nat) (offset : Nat) : Except String (Nat × Nat) :=
  if canRead buffer offset 2 then
    .ok (buffer.getD offset 0 * 256 + buffer.getD (offset + 1) 0, offset + 2)
  else .error "Out of bounds access"

def readUint32_1 (buffer : List Nat) (offset : Nat) : Except String (Nat × Nat) :=
  if canRead buffer offset 4 then
    .ok (buffer.getD offset 0 * 16777216 + buffer.getD (offset + 1) 0 * 65536
          + buffer.getD (offset + 2) 0 * 256 + buffer.getD (offset + 3) 0, offset + 4)
  else .error "Out of bounds access"

/-- The body of the first-draft `readName` loop: `jumps` counts the
remaining iterations of `for (let jumps = 0; jumps < 5; jumps++)`; falling
out of the loop returns the labels collected so far.  State: collected
labels, the `jumping` flag, the scan cursor `jumpOffset` and the decoder
cursor `this.offset`. -/
def readName1Go (buffer : List Nat) :
    Nat → List (List Nat) → Bool → Nat → Nat → Except String (List (List Nat) × Nat)
  | 0, labels, _, _, offset => .ok (labels, offset)
  | jumps + 1, labels, jumping, jumpOffset, offset =>
    if buffer.length ≤ jumpOffset then .error "Out of bounds access"
    else
      let len := buffer.getD jumpOffset 0
      if len = 0 then .ok (labels, if jumping then offset else jumpOffset + 1)
      else if len &&& 0xC0 = 0xC0 then
        if canRead buffer offset 2 then
          readName1Go buffer jumps labels true
            (((len &&& 0x3F) <<< 8) ||| buffer.getD (jumpOffset + 1) 0)
            (if jumping then offset else jumpOffset + 2)
        else .error "Out of bounds access"
      else
        if buffer.length < (jumpOffset + 1) + len then .error "Out of bounds access"
        else
          readName1Go buffer jumps
            (labels ++ [(buffer.drop (jumpOffset + 1)).take len]) jumping
            ((jumpOffset + 1) + len) offset

/-- First draft `DnsDecoder.readName`: at most 5 loop iterations; returns
the joined labels and the advanced cursor. -/
def readName1 (buffer : List Nat) (offset : Nat) : Except String (List Nat × Nat) :=
  match readName1Go buffer 5 [] false offset offset with
  | .ok (labels, o) => .ok (joinDots labels, o)
  | .error e => .error e

def readIPv4_1 (buffer : List Nat) (offset : Nat) : Except String (RData × Nat) :=
  if canRead buffer offset 4 then
    .ok (.ipv4 [buffer.getD offset 0, buffer.getD (offset + 1) 0,
                buffer.getD (offset + 2) 0, buffer.getD (offset + 3) 0], offset + 4)
  else .error "Out of bounds access"

def readIPv6_1 (buffer : List Nat) (offset : Nat) : Except String (RData × Nat) :=
  if canRead buffer offset 16 then
    .ok (.ipv6 ((List.range 8).map fun i =>
          buffer.getD (offset + 2 * i) 0 * 256 + buffer.getD (offset + 2 * i + 1) 0),
         offset + 16)
  else .error "Out of bounds access"

def readString1 (buffer : List Nat) (length offset : Nat) : Except String (List Nat × Nat) :=
  if canRead buffer offset length then
    .ok ((buffer.drop offset).take length, offset + length)
  else .error "Out of bounds access"

/-- First draft `readRData` switch body, without the trailing cursor
correction. Record type numbers follow `RecordType` in `types.ts`. -/
def readRData1Core (buffer : List Nat) (rtype length offset : Nat) :
    Except String (RData × Nat) :=
  if rtype = 1 then
    if length ≠ 4 then .error "Invalid IPv4 length" else readIPv4_1 buffer offset
  else if rtype = 28 then
    if length ≠ 16 then .error "Invalid IPv6 length" else readIPv6_1 buffer offset
  else if rtype = 15 then
    if length < 3 then .error "Invalid MX record length"
    else
      match readUint16_1 buffer offset with
      | .error e => .error e
      | .ok (pref, o1) =>
        match readName1 buffer o1 with
        | .error e => .error e
        | .ok (exch, o2) => .ok (.mx pref exch, o2)
  else if rtype = 16 then
    match readString1 buffer length offset with
    | .error e => .error e
    | .ok (s, o1) => .ok (.txt s, o1)
  else if rtype = 5 ∨ rtype = 2 ∨ rtype = 12 then
    match readName1 buffer offset with
    | .error e => .error e
    | .ok (n, o1) => .ok (.domain n, o1)
  else
    .ok (.raw ((buffer.drop offset).take length), offset + length)

/-- First draft `readRData`: afterwards, if the switch consumed a number of
bytes other than `rdlength`, the cursor is silently moved to
`startOffset + rdlength`. -/
def readRData1 (buffer : List Nat) (rtype length offset : Nat) :
    Except String (RData × Nat) :=
  match readRData1Core buffer rtype length offset with
  | .error e => .error e
  | .ok (data, o1) =>
    if o1 - offset ≠ length then .ok (data, offset + length) else .ok (data, o1)

def readQuestion1 (buffer : List Nat) (offset : Nat) : Except String (Nat × Nat × List Nat × Nat) :=
  match readName1 buffer offset with
  | .error e => .error e
  | .ok (name, o1) =>
    if canRead buffer o1 4 then
      match readUint16_1 buffer o1 with
      | .error e => .error e
      | .ok (qtype, o2) =>
        match readUint16_1 buffer o2 with
        | .error e => .error e
        | .ok (qclass, o3) => .ok (qtype, qclass, name, o3)
    else .error "Out of bounds access"

def readAnswer1 (buffer : List Nat) (offset : Nat) : Except String (DnsAnswerM × Nat) :=
  match readName1 buffer offset with
  | .error e => .error e
  | .ok (name, o1) =>
    if canRead buffer o1 10 then
      match readUint16_1 buffer o1 with
      | .error e => .error e
      | .ok (rtype, o2) =>
      match readUint16_1 buffer o2 with
      | .error e => .error e
      | .ok (qclass, o3) =>
      match readUint32_1 buffer o3 with
      | .error e => .error e
      | .ok (ttl, o4) =>
      match readUint16_1 buffer o4 with
      | .error e => .error e
      | .ok (rdlength, o5) =>
        if canRead buffer o5 rdlength then
          match readRData1 buffer rtype rdlength o5 with
          | .error e => .error e
          | .ok (data, o6) => .ok (⟨name, rtype, qclass, ttl, data⟩, o6)
        else .error "Out of bounds access"
    else .error "Out of bounds access"

/-- First draft `readHeader` (checks 12 bytes, reads the id, re-reads the
flag bytes through `DnsFlags.fromBuffer(buffer.slice(offset - 2))`, then the
four counts). -/
def readHeader1 (buffer : List Nat) :
    Except String (Nat × DnsFlags × Nat × Nat × Nat × Nat × Nat) :=
  if canRead buffer 0 12 then
    match readUint16_1 buffer 0 with
    | .error e => .error e
    | .ok (id, o1) =>
    match readUint16_1 buffer o1 with
    | .error e => .error e
    | .ok (_rawFlags, o2) =>
      let flags := DnsFlags.fromBuffer1 (buffer.drop (o2 - 2))
      match readUint16_1 buffer o2 with
      | .error e => .error e
      | .ok (qd, o3) =>
      match readUint16_1 buffer o3 with
      | .error e => .error e
      | .ok (an, o4) =>
      match readUint16_1 buffer o4 with
      | .error e => .error e
      | .ok (ns, o5) =>
      match readUint16_1 buffer o5 with
      | .error e => .error e
      | .ok (ar, o6) => .ok (id, flags, qd, an, ns, ar, o6)
  else .error "Invalid DNS header size"

def skipQuestions1 (buffer : List Nat) : Nat → Nat → Except String Nat
  | 0, offset => .ok offset
  | n + 1, offset =>
    match readQuestion1 buffer offset with
    | .error e => .error e
    | .ok (_, _, _, o1) => skipQuestions1 buffer n o1

def readAnswers1 (buffer : List Nat) : Nat → Nat → Except String (List DnsAnswerM × Nat)
  | 0, offset => .ok ([], offset)
  | n + 1, offset =>
    match readAnswer1 buffer offset with
    | .error e => .error e
    | .ok (a, o1) =>
      match readAnswers1 buffer n o1 with
      | .error e => .error e
      | .ok (rest, o2) => .ok (a :: rest, o2)

/-- First draft `parseResponse`: checks the QR bit on the raw buffer
(`buffer.readUInt16BE(2)`, which raises when fewer than 4 bytes exist)
before reading the header and the sections. -/
def parseResponse1 (buffer : List Nat) : Except String DnsResponseM :=
  if buffer.length < 4 then .error "out of range"
  else
    let rawFlags := buffer.getD 2 0 * 256 + buffer.getD 3 0
    if rawFlags &&& 0x8000 = 0 then .error "Not a DNS response"
    else
      match readHeader1 buffer with
      | .error e => .error e
      | .ok (id, flags, qd, an, ns, ar, o1) =>
      match skipQuestions1 buffer qd o1 with
      | .error e => .error e
      | .ok o2 =>
      match readAnswers1 buffer an o2 with
      | .error e => .error e
      | .ok (answers, o3) =>
      match readAnswers1 buffer ns o3 with
      | .error e => .error e
      | .ok (authorities, o4) =>
      match readAnswers1 buffer ar o4 with
      | .error e => .error e
      | .ok (additionals, _) => .ok ⟨id, flags, answers, authorities, additionals⟩

/-! ### Second-draft decoder

The second draft `readName` recurses with no jump bound, so it may fail
to terminate; results are reported in `Res`, whose `hang` case marks
exhaustion of the step fuel (the real code hangs or overflows the stack
exactly when no finite fuel suffices). -/

inductive Res (α : Type) where
  | ok (value : α) (offset : Nat)
  | err (msg : String)
  | hang
deriving Repr, DecidableEq

/-- Sequencing for second-draft decoder steps: errors and fuel exhaustion
propagate. -/
def Res.bind {α β : Type} : Res α → (α → Nat → Res β) → Res β
  | .ok a o, f => f a o
  | .err e, _ => .err e
  | .hang, _ => .hang

/-- Node `readUInt16BE` raises past the end of the buffer (the second
draft readers have no `canRead` guard of their own). -/
def readUint16_2 (buffer : List Nat) (offset : Nat) : Res Nat :=
  if offset + 2 ≤ buffer.length then
    .ok (buffer.getD offset 0 * 256 + buffer.getD (offset + 1) 0) (offset + 2)
  else .err "out of range"

def readUint32_2 (buffer : List Nat) (offset : Nat) : Res Nat :=
  if offset + 4 ≤ buffer.length then
    .ok (buffer.getD offset 0 * 16777216 + buffer.getD (offset + 1) 0 * 65536
          + buffer.getD (offset + 2) 0 * 256 + buffer.getD (offset + 3) 0) (offset + 4)
  else .err "out of range"

mutual

/-- Second draft `DnsDecoder.readName`: reads a length octet and enters the
label loop.  A single-byte read past the end yields `undefined`, which the
loop guard coerces to 0, modelled by `getD _ _ 0`. -/
def readName2 (buffer : List Nat) : Nat → Nat → Res (List Nat)
  | 0, _ => .hang
  | fuel + 1, offset =>
    readName2Loop buffer fuel (buffer.getD offset 0) (offset + 1) []

/-- The `while (length > 0)` loop of the second draft `readName`.  On a
compression pointer it recurses into `readName` at the pointer target with
no guard against loops, then breaks. -/
def readName2Loop (buffer : List Nat) : Nat → Nat → Nat → List (List Nat) → Res (List Nat)
  | 0, _, _, _ => .hang
  | fuel + 1, length, offset, labels =>
    if length = 0 then .ok (joinDots labels) offset
    else if length &&& 0xC0 = 0xC0 then
      match readName2 buffer fuel (((length &&& 0x3F) <<< 8) ||| buffer.getD offset 0) with
      | .ok inner _ => .ok (joinDots (labels ++ [inner])) (offset + 1)
      | .err e => .err e
      | .hang => .hang
    else
      readName2Loop buffer fuel (buffer.getD (offset + length) 0) (offset + length + 1)
        (labels ++ [(buffer.drop offset).take length])

end

def readIPv4_2 (buffer : List Nat) (offset : Nat) : Res RData :=
  .ok (.ipv4 [buffer.getD offset 0, buffer.getD (offset + 1) 0,
              buffer.getD (offset + 2) 0, buffer.getD (offset + 3) 0]) (offset + 4)

def readIPv6_2 (buffer : List Nat) (offset : Nat) : Res RData :=
  if offset + 16 ≤ buffer.length then
    .ok (.ipv6 ((List.range 8).map fun i =>
          buffer.getD (offset + 2 * i) 0 * 256 + buffer.getD (offset + 2 * i + 1) 0))
      (offset + 16)
  else .err "out of range"

/-- Second draft `readString`: an unchecked slice of `length` bytes. -/
def readString2 (buffer : List Nat) (length offset : Nat) : List Nat × Nat :=
  ((buffer.drop offset).take length, offset + length)

/-- Second draft `readRData` switch body. -/
def readRData2Core (buffer : List Nat) (fuel rtype length offset : Nat) : Res RData :=
  if rtype = 1 then readIPv4_2 buffer offset
  else if rtype = 28 then readIPv6_2 buffer offset
  else if rtype = 15 then
    Res.bind (readUint16_2 buffer offset) fun pref o1 =>
    Res.bind (readName2 buffer fuel o1) fun exch o2 =>
    .ok (.mx pref exch) o2
  else if rtype = 16 then
    let (s, o1) := readString2 buffer length offset
    .ok (.txt s) o1
  else if rtype = 5 ∨ rtype = 2 ∨ rtype = 12 then
    Res.bind (readName2 buffer fuel offset) fun n o1 => .ok (.domain n) o1
  else
    .ok (.raw ((buffer.drop offset).take length)) (offset + length)

/-- Second draft `readRData`: a length mismatch after the switch throws
(`Record data length mismatch`), unlike the first draft which corrects the
cursor silently. -/
def readRData2 (buffer : List Nat) (fuel rtype length offset : Nat) : Res RData :=
  Res.bind (readRData2Core buffer fuel rtype length offset) fun data o1 =>
    if o1 - offset ≠ length then .err "Record data length mismatch" else .ok data o1

def readQuestion2 (buffer : List Nat) (fuel offset : Nat) : Res (Nat × Nat × List Nat) :=
  Res.bind (readName2 buffer fuel offset) fun name o1 =>
  Res.bind (readUint16_2 buffer o1) fun qtype o2 =>
  Res.bind (readUint16_2 buffer o2) fun qclass o3 =>
  .ok (qtype, qclass, name) o3

def readAnswer2 (buffer : List Nat) (fuel offset : Nat) : Res DnsAnswerM :=
  Res.bind (readName2 buffer fuel offset) fun name o1 =>
  Res.bind (readUint16_2 buffer o1) fun rtype o2 =>
  Res.bind (readUint16_2 buffer o2) fun qclass o3 =>
  Res.bind (readUint32_2 buffer o3) fun ttl o4 =>
  Res.bind (readUint16_2 buffer o4) fun rdlength o5 =>
  Res.bind (readRData2 buffer fuel rtype rdlength o5) fun data o6 =>
  .ok ⟨name, rtype, qclass, ttl, data⟩ o6

/-- Second draft `readHeader`: length check, id, flags via
`DnsFlags.fromBuffer(this.buffer.slice(this.offset, this.offset + 2))` — a
2-byte slice whose indices 2 and 3 are out of bounds — then the counts. -/
def readHeader2 (buffer : List Nat) :
    Res (Nat × DnsFlags × Nat × Nat × Nat × Nat) :=
  if buffer.length < 12 then .err "Invalid DNS header size"
  else
    Res.bind (readUint16_2 buffer 0) fun id o1 =>
    let flags := DnsFlags.fromBuffer2 ((buffer.drop o1).take 2)
    let o2 := o1 + 2
    Res.bind (readUint16_2 buffer o2) fun qd o3 =>
    Res.bind (readUint16_2 buffer o3) fun an o4 =>
    Res.bind (readUint16_2 buffer o4) fun ns o5 =>
    Res.bind (readUint16_2 buffer o5) fun ar o6 =>
    .ok (id, flags, qd, an, ns, ar) o6

def skipQuestions2 (buffer : List Nat) (fuel : Nat) : Nat → Nat → Res Unit
  | 0, offset => .ok () offset
  | n + 1, offset =>
    Res.bind (readQuestion2 buffer fuel offset) fun _ o1 =>
      skipQuestions2 buffer fuel n o1

def readAnswers2 (buffer : List Nat) (fuel : Nat) : Nat → Nat → Res (List DnsAnswerM)
  | 0, offset => .ok [] offset
  | n + 1, offset =>
    Res.bind (readAnswer2 buffer fuel offset) fun a o1 =>
    Res.bind (readAnswers2 buffer fuel n o1) fun rest o2 =>
    .ok (a :: rest) o2

/-- Second draft `parseResponse`: header, the `Not a DNS response` check on
the parsed flags, then the sections.  The offset carried by the final `ok`
is unused (the response object is the result). -/
def parseResponse2 (fuel : Nat) (buffer : List Nat) : Res DnsResponseM :=
  Res.bind (readHeader2 buffer) fun h o1 =>
    match h with
    | (id, flags, qd, an, ns, ar) =>
      if flags.response = false then .err "Not a DNS response"
      else
        Res.bind (skipQuestions2 buffer fuel qd o1) fun _ o2 =>
        Res.bind (readAnswers2 buffer fuel an o2) fun answers o3 =>
        Res.bind (readAnswers2 buffer fuel ns o3) fun authorities o4 =>
        Res.bind (readAnswers2 buffer fuel ar o4) fun additionals _ =>
        .ok ⟨id, flags, answers, authorities, additionals⟩ 0

/-! ### Encoder (`DnsEncoder`, identical in both drafts)

The encoder owns a 512-byte buffer.  A single-byte store past the end of a
Node `Buffer` is a silent no-op, exactly like `List.set` out of range;
`Buffer.write` truncates at the end of the buffer, which the fold of
`List.set` reproduces; `writeUInt16BE` and `Buffer.prototype.set` raise on
out-of-range offsets or values, modelled in `Except`. -/

structure EncState where
  buf : List Nat
  offset : Nat
deriving Repr, DecidableEq

def encInit : EncState := ⟨List.replicate 512 0, 0⟩

/-- Write a byte sequence starting at `offset` (`Buffer.write` semantics:
stores past the end are dropped). -/
def writeAt (buf : List Nat) (offset : Nat) : List Nat → List Nat
  | [] => buf
  | b :: bs => writeAt (buf.set offset b) (offset + 1) bs

/-- `this.buffer[this.offset++] = v`. -/
def setByte (st : EncState) (v : Nat) : EncState :=
  ⟨st.buf.set st.offset v, st.offset + 1⟩

/-- `writeUint16`: Node `writeUInt16BE` rejects values outside 0..65535 and
offsets that do not leave 2 bytes of room. -/
def writeUint16E (st : EncState) (value : Nat) : Except String EncState :=
  if value < 65536 ∧ st.offset + 2 ≤ st.buf.length then
    .ok ⟨(st.buf.set st.offset (value / 256)).set (st.offset + 1) (value % 256), st.offset + 2⟩
  else .error "out of range"

/-- `this.buffer.set(flagsBuffer, this.offset); this.offset += 2` — the
typed-array `set` raises when the 2-byte source does not fit. -/
def setFlagsBuf (st : EncState) (src : List Nat) : Except String EncState :=
  if st.offset + src.length ≤ st.buf.length then
    .ok ⟨writeAt st.buf st.offset src, st.offset + 2⟩
  else .error "out of range"

/-- JavaScript `name.split('.')` over a code-unit list (46 = dot); an empty
string splits to one empty segment. -/
def jsSplitDot : List Nat → List (List Nat)
  | [] => [[]]
  | c :: rest =>
    if c = 46 then [] :: jsSplitDot rest
    else
      match jsSplitDot rest with
      | [] => [[c]]
      | l :: ls => (c :: l) :: ls

/-- The label loop of `writeName` followed by the terminal zero.  Only the
constant part of the thrown message is kept. -/
def writeNameGo (st : EncState) : List (List Nat) → Except String EncState
  | [] => .ok (setByte st 0)
  | label :: rest =>
    if 63 < label.length then .error "Label too long"
    else
      writeNameGo
        ⟨writeAt (st.buf.set st.offset label.length) (st.offset + 1) label,
         st.offset + 1 + label.length⟩ rest

/-- `DnsEncoder.writeName` (both drafts): split on dots, emit
length-prefixed labels, terminal zero.  No check of the total encoded
length is performed (`MAX_NAME_LENGTH` is declared but never used). -/
def writeName (st : EncState) (name : List Nat) : Except String EncState :=
  writeNameGo st (jsSplitDot name)

/-- The flag value `buildQuery` sends: `recursionDesired = true`,
`response = false`, everything else default. -/
def queryFlags : DnsFlags := { recursionDesired := true, response := false }

/-- `buildQuery` of the first draft: header (id, flags, counts 1/0/0/0),
then the question, then `getBuffer` returns `slice(0, offset)`. -/
def buildQuery1 (name : List Nat) (qtype qclass id : Nat) : Except String (List Nat) := do
  let st1 ← writeUint16E encInit id
  let st2 ← setFlagsBuf st1 (DnsFlags.toBuffer1 queryFlags)
  let st3 ← writeUint16E st2 1
  let st4 ← writeUint16E st3 0
  let st5 ← writeUint16E st4 0
  let st6 ← writeUint16E st5 0
  let st7 ← writeName st6 name
  let st8 ← writeUint16E st7 qtype
  let st9 ← writeUint16E st8 qclass
  pure (st9.buf.take st9.offset)

/-- `buildQuery` of the second draft (textually the same, but using the
second-draft flag codec). -/
def buildQuery2 (name : List Nat) (qtype qclass id : Nat) : Except String (List Nat) := do
  let st1 ← writeUint16E encInit id
  let st2 ← setFlagsBuf st1 (DnsFlags.toBuffer2 queryFlags)
  let st3 ← writeUint16E st2 1
  let st4 ← writeUint16E st3 0
  let st5 ← writeUint16E st4 0
  let st6 ← writeUint16E st5 0
  let st7 ← writeName st6 name
  let st8 ← writeUint16E st7 qtype
  let st9 ← writeUint16E st8 qclass
  pure (st9.buf.take st9.offset)

/-- The encoded length of a successful encoder run. -/
def encodedLen (r : Except String EncState) : Option Nat :=
  match r with
  | .ok st => some st.offset
  | .error _ => none

/-! ### Client orchestration (`DnsClient.query`, `src/client.ts`)

The transport is a collaborator behind `transport.query(nameserver,
request)`; it is modelled by a script assigning to each transport call (in
call order) the buffer it resolves with or the error it rejects with.
`parseResponse` is imported from the protocol module, so the orchestration
model takes it as a parameter. -/

inductive TransportType where
  | udp
  | tcp
  | tls
  | https
deriving Repr, DecidableEq

structure TransportCall where
  ttype : TransportType
  nameserver : String
  request : List Nat
deriving Repr, DecidableEq

structure TryResult where
  calls : List TransportCall
  nextCallIdx : Nat
  outcome : Except String DnsResponseM
deriving Repr

/-- One execution of the `try` block in the retry loop (client.ts lines
129-170): transport call, minimum-size check, raw QR-bit check, parse,
then the UDP truncation fallback (one TCP call with the same request to
the same nameserver, whose parsed response is used instead). -/
def tryOnce (parse : List Nat → Except String DnsResponseM)
    (script : Nat → Except String (List Nat))
    (transportType : TransportType) (nameserver : String) (request : List Nat)
    (callIdx : Nat) : TryResult :=
  let call1 : TransportCall := ⟨transportType, nameserver, request⟩
  match script callIdx with
  | .error e => ⟨[call1], callIdx + 1, .error e⟩
  | .ok response =>
    if response.length < 12 then ⟨[call1], callIdx + 1, .error "Response too short"⟩
    else
      let responseFlags := response.getD 2 0 * 256 + response.getD 3 0
      if responseFlags &&& 0x8000 = 0 then
        ⟨[call1], callIdx + 1, .error "Response flag not set in DNS message"⟩
      else
        match parse response with
        | .error e => ⟨[call1], callIdx + 1, .error e⟩
        | .ok parsed =>
          if transportType = TransportType.udp ∧ parsed.flags.truncated then
            let call2 : TransportCall := ⟨TransportType.tcp, nameserver, request⟩
            match script (callIdx + 1) with
            | .error e => ⟨[call1, call2], callIdx + 2, .error e⟩
            | .ok tcpResponse =>
              match parse tcpResponse with
              | .error e => ⟨[call1, call2], callIdx + 2, .error e⟩
              | .ok tcpParsed => ⟨[call1, call2], callIdx + 2, .ok tcpParsed⟩
          else ⟨[call1], callIdx + 1, .ok parsed⟩

structure AttemptResult where
  calls : List TransportCall
  sleeps : List Nat
  outcome : Except String (Option DnsResponseM)
deriving Repr

/-- The retry loop `for (let attempt = 0; attempt < maxRetries; attempt++)`
with `left` iterations remaining: success breaks, the last failure is
rethrown, other failures sleep `2 ** attempt * 1000` ms and continue.
`outcome = ok none` means the loop body never ran (`maxRetries = 0`). -/
def retryGo (parse : List Nat → Except String DnsResponseM)
    (script : Nat → Except String (List Nat))
    (transportType : TransportType) (nameserver : String) (request : List Nat) :
    Nat → Nat → Nat → AttemptResult
  | 0, _, _ => ⟨[], [], .ok none⟩
  | left + 1, attempt, callIdx =>
    let t := tryOnce parse script transportType nameserver request callIdx
    match t.outcome with
    | .ok r => ⟨t.calls, [], .ok (some r)⟩
    | .error e =>
      if left = 0 then ⟨t.calls, [], .error e⟩
      else
        let rest := retryGo parse script transportType nameserver request
          left (attempt + 1) t.nextCallIdx
        ⟨t.calls ++ rest.calls, (2 ^ attempt * 1000) :: rest.sleeps, rest.outcome⟩

/-- One query processed by `DnsClient.query`:
`const maxRetries = this.options.retries || 3` (so `retries = 0`, like an
absent option, falls back to 3), then the retry loop. -/
def queryOnce (parse : List Nat → Except String DnsResponseM)
    (script : Nat → Except String (List Nat))
    (transportType : TransportType) (nameserver : String) (request : List Nat)
    (retries : Nat) : AttemptResult :=
  retryGo parse script transportType nameserver request
    (if retries = 0 then 3 else retries) 0 0

/-! ### Query building (`DnsClient.buildQueries`, `resolveTypes`,
`resolveClasses`)

Record types and classes are modelled after validation and string-to-enum
conversion, as lists of numeric codes; `none` stands for an absent option
(`undefined`), which is falsy in the source, while an explicitly empty
array is truthy and is mapped as-is. -/

def RecordTypeA : Nat := 1

def QClassIN : Nat := 1

structure DnsOptionsM where
  domains : List String
  rtype : Option (List Nat)
  qclass : Option (List Nat)
deriving Repr, DecidableEq

structure DnsQueryM where
  name : String
  rtype : Nat
  qclass : Nat
deriving Repr, DecidableEq

/-- `resolveTypes`: `if (!this.options.type) return [RecordType.A]` — only
an absent (falsy) option defaults; an empty array maps to an empty list. -/
def resolveTypes (o : DnsOptionsM) : List Nat :=
  match o.rtype with
  | none => [RecordTypeA]
  | some ts => ts

/-- `resolveClasses`: same defaulting discipline with `QClass.IN`. -/
def resolveClasses (o : DnsOptionsM) : List Nat :=
  match o.qclass with
  | none => [QClassIN]
  | some cs => cs

/-- The triple nested loop of `buildQueries` in declaration order. -/
def queryProduct (domains : List String) (types classes : List Nat) : List DnsQueryM :=
  domains.flatMap fun d => types.flatMap fun t => classes.map fun c => ⟨d, t, c⟩

/-- `DnsClient.buildQueries`: rejects an absent or empty domain list, then
takes the cartesian product domains × types × classes. -/
def buildQueries (o : DnsOptionsM) : Except String (List DnsQueryM) :=
  if o.domains.isEmpty then .error "No domains specified"
  else .ok (queryProduct o.domains (resolveTypes o) (resolveClasses o))

/-- The outer loop of `DnsClient.query` over the built queries: each query
is processed in order and its accepted response pushed; the first failing
query aborts the whole run. -/
def runAll (qres : DnsQueryM → Except String DnsResponseM) :
    List DnsQueryM → Except String (List DnsResponseM)
  | [] => .ok []
  | q :: qs =>
    match qres q with
    | .error e => .error e
    | .ok r =>
      match runAll qres qs with
      | .error e => .error e
      | .ok rs => .ok (r :: rs)

/-! ### Concrete probe values -/

/-- A 14-byte message: 12-byte header of zeros, then a name at offset 12
whose compression pointer (0xC0 0x0C) targets offset 12, i.e. itself. -/
def c2self : List Nat := [0, 0, 0, 0, 0, 0, 0, 0, 0, 0, 0, 0, 192, 12]

/-- The same self-pointer message with two trailing padding bytes. -/
def c2pad : List Nat := [0, 0, 0, 0, 0, 0, 0, 0, 0, 0, 0, 0, 192, 12, 0, 0]

/-- The TXT RDATA sample from the spec: 0B 76 3D 73 70 66 31 20 74 65 73 74. -/
def c3buf : List Nat := [11, 118, 61, 115, 112, 102, 49, 32, 116, 101, 115, 116]

/-- The 11 code units of "v=spf1 test". -/
def spfText : List Nat := [118, 61, 115, 112, 102, 49, 32, 116, 101, 115, 116]

/-- A name of four 63-octet labels: encoded form takes 4*(1+63)+1 = 257
octets, past the 255-octet limit. -/
def c7BigName : List Nat :=
  joinDots [List.replicate 63 97, List.replicate 63 97,
            List.replicate 63 97, List.replicate 63 97]

/-- A parse function for orchestrator probes: id from the first two bytes,
flags from bytes 2..3 via the first-draft codec, no records. -/
def bytesParse : List Nat → Except String DnsResponseM := fun b =>
  .ok { id := b.getD 0 0 * 256 + b.getD 1 0, flags := DnsFlags.fromBuffer1 (b.drop 2) }

/-- A 12-byte response with id 7, QR and TC set (flags 0x8200). -/
def c4udpResp : List Nat := [0, 7, 130, 0, 0, 0, 0, 0, 0, 0, 0, 0]

/-- A 12-byte response with id 7, QR set and TC clear (flags 0x8000). -/
def c4tcpResp : List Nat := [0, 7, 128, 0, 0, 0, 0, 0, 0, 0, 0, 0]

/-- Transport script for the truncation probe: the first call resolves with
the truncated response, the second with the clean one. -/
def c4script : Nat → Except String (List Nat) := fun i =>
  if i = 0 then .ok c4udpResp else if i = 1 then .ok c4tcpResp else .error "no call"

/-- An encoded request whose transaction id is 1 (header id bytes 00 01). -/
def c8req : List Nat := [0, 1, 1, 0, 0, 1, 0, 0, 0, 0, 0, 0, 2, 97, 98, 0, 0, 1, 0, 1]

/-- A response whose id field is 2 — mismatching the request id 1 — with
the QR bit set and TC clear. -/
def c8resp : List Nat := [0, 2, 128, 0, 0, 0, 0, 0, 0, 0, 0, 0]

def c8script : Nat → Except String (List Nat) := fun i =>
  if i = 0 then .ok c8resp else .error "no call"

/-- A transport that always fails. -/
def failScript : Nat → Except String (List Nat) := fun _ => .error "query timed out"

/-- A parse stub for runs that never reach parsing. -/
def noParse : List Nat → Except String DnsResponseM := fun _ => .error "unreachable"

/-- Options with one domain, an explicitly empty (not absent) type list,
and no class option. -/
def c6opts : DnsOptionsM := ⟨["example.com"], some [], none⟩

/-- The bytes `buildQuery` produces for name "ab", type 1 (A), class 1
(IN), transaction id 7. -/
def c10buf : List Nat :=
  [0, 7, 1, 0, 0, 1, 0, 0, 0, 0, 0, 0, 2, 97, 98, 0, 0, 1, 0, 1]

theorem or_eq_add (p x b i : Nat) (hp : p = 2 ^ i) (hx : p ∣ x) (hb : b < p) :
    x ||| b = x + b := by
  subst hp
  obtain ⟨a, rfl⟩ := hx
  exact (Nat.mul_add_lt_is_or hb a).symm

theorem ite_mul_toNat (b : Bool) (k : Nat) : (if b then k else 0) = k * b.toNat := by
  cases b <;> simp

theorem and255 (x : Nat) : x &&& 255 = x % 256 := by
  have h := Nat.and_pow_two_sub_one_eq_mod x 8
  norm_num at h
  exact h

theorem and15 (x : Nat) : x &&& 15 = x % 16 := by
  have h := Nat.and_pow_two_sub_one_eq_mod x 4
  norm_num at h
  exact h

theorem and_single_bit (x p i : Nat) (hp : p = 2 ^ i) : x &&& p = x / p % 2 * p := by
  subst hp
  rw [Nat.and_two_pow, Nat.testBit_to_div_mod]
  rcases Nat.mod_two_eq_zero_or_one (x / 2 ^ i) with h | h <;> simp [h]

theorem shiftRight_and_distrib (x y n : Nat) :
    (x &&& y) >>> n = (x >>> n) &&& (y >>> n) :=
  Nat.eq_of_testBit_eq fun i => by
    simp [Nat.testBit_shiftRight, Nat.testBit_and]

theorem extract_bit (w p i : Nat) (b : Bool) (hp : p = 2 ^ i)
    (h : w / p % 2 = b.toNat) : ((w &&& p) != 0) = b := by
  subst hp
  rw [and_single_bit w (2 ^ i) i rfl]
  rw [h]
  cases b
  · simp
  · simp [(Nat.two_pow_pos i).ne']

/-- First-draft flag encoding in closed arithmetic form. -/
theorem toBuffer1_eq_sum (f : DnsFlags) :
    DnsFlags.toBuffer1 f =
      [128 * f.response.toNat + 8 * (f.opcode % 16) + 4 * f.authoritative.toNat
         + 2 * f.truncated.toNat + f.recursionDesired.toNat,
       128 * f.recursionAvailable.toNat + 32 * f.authenticData.toNat
         + 16 * f.checkingDisabled.toNat + f.responseCode % 16] := by
  obtain ⟨r, o, aa, tc, rd, ra, ad, cd, rc⟩ := f
  have hr := Bool.toNat_le r
  have haa := Bool.toNat_le aa
  have htc := Bool.toNat_le tc
  have hrd := Bool.toNat_le rd
  have hra := Bool.toNat_le ra
  have had := Bool.toNat_le ad
  have hcd := Bool.toNat_le cd
  simp only [DnsFlags.toBuffer1, ite_mul_toNat, Nat.shiftLeft_eq, and15]
  have e11 : o % 16 * 2 ^ 11 = o % 16 * 2048 := by norm_num
  rw [e11]
  rw [or_eq_add 32768 (32768 * r.toNat) (o % 16 * 2048) 15 (by norm_num)
    ⟨r.toNat, rfl⟩ (by omega)]
  rw [or_eq_add 2048 (32768 * r.toNat + o % 16 * 2048) (1024 * aa.toNat) 11 (by norm_num)
    ⟨16 * r.toNat + o % 16, by ring⟩ (by omega)]
  rw [or_eq_add 1024 (32768 * r.toNat + o % 16 * 2048 + 1024 * aa.toNat) (512 * tc.toNat) 10
    (by norm_num) ⟨32 * r.toNat + 2 * (o % 16) + aa.toNat, by ring⟩ (by omega)]
  rw [or_eq_add 512
    (32768 * r.toNat + o % 16 * 2048 + 1024 * aa.toNat + 512 * tc.toNat) (256 * rd.toNat) 9
    (by norm_num) ⟨64 * r.toNat + 4 * (o % 16) + 2 * aa.toNat + tc.toNat, by ring⟩ (by omega)]
  rw [or_eq_add 256
    (32768 * r.toNat + o % 16 * 2048 + 1024 * aa.toNat + 512 * tc.toNat + 256 * rd.toNat)
    (128 * ra.toNat) 8 (by norm_num)
    ⟨128 * r.toNat + 8 * (o % 16) + 4 * aa.toNat + 2 * tc.toNat + rd.toNat, by ring⟩ (by omega)]
  rw [or_eq_add 128
    (32768 * r.toNat + o % 16 * 2048 + 1024 * aa.toNat + 512 * tc.toNat + 256 * rd.toNat
      + 128 * ra.toNat) (32 * ad.toNat) 7 (by norm_num)
    ⟨256 * r.toNat + 16 * (o % 16) + 8 * aa.toNat + 4 * tc.toNat + 2 * rd.toNat + ra.toNat,
      by ring⟩ (by omega)]
  rw [or_eq_add 32
    (32768 * r.toNat + o % 16 * 2048 + 1024 * aa.toNat + 512 * tc.toNat + 256 * rd.toNat
      + 128 * ra.toNat + 32 * ad.toNat) (16 * cd.toNat) 5 (by norm_num)
    ⟨1024 * r.toNat + 64 * (o % 16) + 32 * aa.toNat + 16 * tc.toNat + 8 * rd.toNat
      + 4 * ra.toNat + ad.toNat, by ring⟩ (by omega)]
  rw [or_eq_add 16
    (32768 * r.toNat + o % 16 * 2048 + 1024 * aa.toNat + 512 * tc.toNat + 256 * rd.toNat
      + 128 * ra.toNat + 32 * ad.toNat + 16 * cd.toNat) (rc % 16) 4 (by norm_num)
    ⟨2048 * r.toNat + 128 * (o % 16) + 64 * aa.toNat + 32 * tc.toNat + 16 * rd.toNat
      + 8 * ra.toNat + 2 * ad.toNat + cd.toNat, by ring⟩ (by omega)]
  rw [Nat.shiftRight_eq_div_pow, and255, and255]
  have e8 : (2 : Nat) ^ 8 = 256 := by norm_num
  rw [e8]
  simp only [List.cons.injEq, and_true]
  omega

/-- Second-draft flag encoding in the same closed arithmetic form. -/
theorem toBuffer2_eq_sum (f : DnsFlags) :
    DnsFlags.toBuffer2 f =
      [128 * f.response.toNat + 8 * (f.opcode % 16) + 4 * f.authoritative.toNat
         + 2 * f.truncated.toNat + f.recursionDesired.toNat,
       128 * f.recursionAvailable.toNat + 32 * f.authenticData.toNat
         + 16 * f.checkingDisabled.toNat + f.responseCode % 16] := by
  obtain ⟨r, o, aa, tc, rd, ra, ad, cd, rc⟩ := f
  have hr := Bool.toNat_le r
  have haa := Bool.toNat_le aa
  have htc := Bool.toNat_le tc
  have hrd := Bool.toNat_le rd
  have hra := Bool.toNat_le ra
  have had := Bool.toNat_le ad
  have hcd := Bool.toNat_le cd
  simp only [DnsFlags.toBuffer2, ite_mul_toNat, Nat.shiftLeft_eq, and15]
  have e3 : o % 16 * 2 ^ 3 = o % 16 * 8 := by norm_num
  rw [e3]
  rw [or_eq_add 128 (128 * r.toNat) (o % 16 * 8) 7 (by norm_num) ⟨r.toNat, rfl⟩ (by omega)]
  rw [or_eq_add 8 (128 * r.toNat + o % 16 * 8) (4 * aa.toNat) 3 (by norm_num)
    ⟨16 * r.toNat + o % 16, by ring⟩ (by omega)]
  rw [or_eq_add 4 (128 * r.toNat + o % 16 * 8 + 4 * aa.toNat) (2 * tc.toNat) 2 (by norm_num)
    ⟨32 * r.toNat + 2 * (o % 16) + aa.toNat, by ring⟩ (by omega)]
  rw [or_eq_add 2 (128 * r.toNat + o % 16 * 8 + 4 * aa.toNat + 2 * tc.toNat) (1 * rd.toNat) 1
    (by norm_num) ⟨64 * r.toNat + 4 * (o % 16) + 2 * aa.toNat + tc.toNat, by ring⟩ (by omega)]
  rw [or_eq_add 128 (128 * ra.toNat) (32 * ad.toNat) 7 (by norm_num)
    ⟨ra.toNat, rfl⟩ (by omega)]
  rw [or_eq_add 32 (128 * ra.toNat + 32 * ad.toNat) (16 * cd.toNat) 5 (by norm_num)
    ⟨4 * ra.toNat + ad.toNat, by ring⟩ (by omega)]
  rw [or_eq_add 16 (128 * ra.toNat + 32 * ad.toNat + 16 * cd.toNat) (rc % 16) 4 (by norm_num)
    ⟨8 * ra.toNat + 2 * ad.toNat + cd.toNat, by ring⟩ (by omega)]
  simp only [List.cons.injEq, and_true]
  omega

/-- The two toBuffer drafts agree on every flags value: bits 11..14 of a
big-endian 16-bit word are exactly bits 3..6 of its first byte. -/
theorem toBuffer_drafts_agree (f : DnsFlags) :
    DnsFlags.toBuffer1 f = DnsFlags.toBuffer2 f := by
  rw [toBuffer1_eq_sum, toBuffer2_eq_sum]

/-- The first draft round-trips every in-range flags value. -/
theorem fromBuffer1_toBuffer1 (f : DnsFlags)
    (ho : f.opcode < 16) (hrc : f.responseCode < 16) :
    DnsFlags.fromBuffer1 (DnsFlags.toBuffer1 f) = f := by
  obtain ⟨r, o, aa, tc, rd, ra, ad, cd, rc⟩ := f
  rw [toBuffer1_eq_sum]
  have hr := Bool.toNat_le r
  have haa := Bool.toNat_le aa
  have htc := Bool.toNat_le tc
  have hrd := Bool.toNat_le rd
  have hra := Bool.toNat_le ra
  have had := Bool.toNat_le ad
  have hcd := Bool.toNat_le cd
  simp only [DnsFlags.fromBuffer1, List.getD_cons_zero, List.getD_cons_succ,
    DnsFlags.mk.injEq] at ho hrc ⊢
  refine ⟨?_, ?_, ?_, ?_, ?_, ?_, ?_, ?_, ?_⟩
  · exact extract_bit _ 32768 15 r (by norm_num) (by omega)
  · rw [shiftRight_and_distrib]
    have e : (30720 : Nat) >>> 11 = 15 := rfl
    rw [e, and15, Nat.shiftRight_eq_div_pow]
    have e11 : (2 : Nat) ^ 11 = 2048 := by norm_num
    rw [e11]
    omega
  · exact extract_bit _ 1024 10 aa (by norm_num) (by omega)
  · exact extract_bit _ 512 9 tc (by norm_num) (by omega)
  · exact extract_bit _ 256 8 rd (by norm_num) (by omega)
  · exact extract_bit _ 128 7 ra (by norm_num) (by omega)
  · exact extract_bit _ 32 5 ad (by norm_num) (by omega)
  · exact extract_bit _ 16 4 cd (by norm_num) (by omega)
  · rw [and15]
    omega

/-- The second-draft byte layout agrees with the layout prescribed in
section 4.1 of the spec. -/
theorem toBuffer2_matches_layout (f : DnsFlags)
    (ho : f.opcode < 16) (hrc : f.responseCode < 16) :
    DnsFlags.toBuffer2 f = flagLayoutSpec f := by
  obtain ⟨r, o, aa, tc, rd, ra, ad, cd, rc⟩ := f
  rw [toBuffer2_eq_sum]
  simp only [flagLayoutSpec, ite_mul_toNat] at ho hrc ⊢
  simp only [List.cons.injEq, and_true]
  omega

/-! ### Claim theorems -/

/-- C1: Encoding a Flags value and decoding the two-octet result
round-trips in the first-draft codec (for OPCODE and RCODE in 0..15), and
the encoded pair follows the section 4.1 layout; but in the second draft
the round-trip fails for any non-default flags value, because its
`fromBuffer` reads byte indices 2 and 3, which lie outside the two-octet
buffer `toBuffer` produces, so every field decodes to its default. -/
theorem C1_flag_roundtrip :
    (∀ f : DnsFlags, f.opcode < 16 → f.responseCode < 16 →
      DnsFlags.fromBuffer1 (DnsFlags.toBuffer1 f) = f)
    ∧ DnsFlags.fromBuffer2 (DnsFlags.toBuffer2 c1Flags) = {}
    ∧ DnsFlags.fromBuffer2 (DnsFlags.toBuffer2 c1Flags) ≠ c1Flags :=
  ⟨fun f ho hrc => fromBuffer1_toBuffer1 f ho hrc, by decide, by decide⟩

/-- C1 witness: the round-trip of the first draft at a concrete flags
value with several bits set. -/
theorem C1_flag_roundtrip_witness :
    DnsFlags.fromBuffer1 (DnsFlags.toBuffer1 c1Flags) = c1Flags :=
  C1_flag_roundtrip.1 c1Flags (by decide) (by decide)

/-- C9 counterexample: no Flags value makes the two toBuffer drafts encode
different byte pairs — bits 11..14 of the big-endian 16-bit word are
exactly bits 6..3 of byte 0 — refuting the claimed disagreement. -/
theorem C9_counterexample :
    ¬ ∃ f : DnsFlags, DnsFlags.toBuffer1 f ≠ DnsFlags.toBuffer2 f :=
  fun ⟨f, hf⟩ => hf (toBuffer_drafts_agree f)

/-- C9 amended: the two drafts encode every Flags value identically, and
(for OPCODE and RCODE in 0..15) the common encoding matches the section
4.1 byte layout. -/
theorem C9_drafts_agree (f : DnsFlags)
    (ho : f.opcode < 16) (hrc : f.responseCode < 16) :
    DnsFlags.toBuffer1 f = DnsFlags.toBuffer2 f
    ∧ DnsFlags.toBuffer2 f = flagLayoutSpec f :=
  ⟨toBuffer_drafts_agree f, toBuffer2_matches_layout f ho hrc⟩

/-- C9 witness: draft agreement and layout conformance at a concrete
flags value. -/
theorem C9_drafts_agree_witness :
    DnsFlags.toBuffer1 c1Flags = DnsFlags.toBuffer2 c1Flags
    ∧ DnsFlags.toBuffer2 c1Flags = flagLayoutSpec c1Flags :=
  C9_drafts_agree c1Flags (by decide) (by decide)

/-- On the self-pointer message, the second-draft `readName` recursion
never terminates: no amount of fuel reaches a result. -/
theorem readName2_c2self_hang : ∀ fuel, readName2 c2self fuel 12 = Res.hang := by
  intro fuel
  induction fuel using Nat.strong_induction_on with
  | _ fuel ih =>
    rcases fuel with _ | _ | f
    · rfl
    · rfl
    · have h1 : readName2 c2self (f + 2) 12 = readName2Loop c2self (f + 1) 192 13 [] := rfl
      have h2 : readName2Loop c2self (f + 1) 192 13 []
          = match readName2 c2self f 12 with
            | .ok inner _ => .ok (joinDots ([] ++ [inner])) (13 + 1)
            | .err e => .err e
            | .hang => .hang := rfl
      rw [h1, h2, ih f (by omega)]

/-- C3: the second-draft TXT decoder returns the raw RDATA slice with the
leading 1-octet character-string length still present, so the 12-octet
sample decodes to the 12 bytes 0B "v=spf1 test" and not to the 11-byte
text "v=spf1 test" the claim expects. -/
theorem C3_txt_retains_length_octet :
    readRData2 c3buf 100 16 12 0 = Res.ok (RData.txt c3buf) 12
    ∧ readString2 c3buf 12 0 = (c3buf, 12)
    ∧ c3buf = 11 :: spfText
    ∧ c3buf ≠ spfText :=
  ⟨rfl, rfl, rfl, by decide⟩

/-- C2: a name whose compression pointer targets itself is never rejected
with an InvalidPointer error.  The first-draft decoder throws its generic
"Out of bounds access" on the exact 14-byte message, and with two trailing
padding bytes it silently returns the empty partial name after exhausting
its five-jump budget; the second-draft decoder recurses forever. -/
theorem C2_self_pointer_not_rejected :
    readName1 c2self 12 = .error "Out of bounds access"
    ∧ readName1 c2pad 12 = .ok ([], 14)
    ∧ ∀ fuel, readName2 c2self fuel 12 = Res.hang :=
  ⟨rfl, rfl, readName2_c2self_hang⟩

/-! ### Retry loop facts (C5) -/

/-- With a transport that always fails, `left` remaining attempts consume
exactly `left` transport calls, sleep `2^(attempt+a) * 1000` ms after each
failure but the last, and surface the error of the last call. -/
theorem retryGo_always_fails (parse : List Nat → Except String DnsResponseM)
    (err : Nat → String) (tt : TransportType) (ns : String) (req : List Nat) :
    ∀ (left attempt callIdx : Nat), 1 ≤ left →
    retryGo parse (fun i => .error (err i)) tt ns req left attempt callIdx =
      ⟨List.replicate left ⟨tt, ns, req⟩,
       (List.range (left - 1)).map (fun a => 2 ^ (attempt + a) * 1000),
       .error (err (callIdx + left - 1))⟩ := by
  intro left
  induction left with
  | zero => intro attempt callIdx h; exact absurd h (by omega)
  | succ l ih =>
    intro attempt callIdx _
    rcases Nat.eq_zero_or_pos l with hl | hl
    · subst hl
      rfl
    · have hsleeps : (List.range l).map (fun a => 2 ^ (attempt + a) * 1000)
          = 2 ^ attempt * 1000
            :: (List.range (l - 1)).map (fun a => 2 ^ (attempt + 1 + a) * 1000) := by
        obtain ⟨m, rfl⟩ : ∃ m, l = m + 1 := ⟨l - 1, by omega⟩
        rw [List.range_succ_eq_map, List.map_cons, List.map_map]
        simp only [Nat.add_zero, Nat.add_succ_sub_one]
        refine congrArg _ (List.map_congr_left fun a _ => ?_)
        simp only [Function.comp]
        rw [show attempt + Nat.succ a = attempt + 1 + a by omega]
      have step : retryGo parse (fun i => .error (err i)) tt ns req (l + 1) attempt callIdx
          = ⟨[(⟨tt, ns, req⟩ : TransportCall)]
               ++ (retryGo parse (fun i => .error (err i)) tt ns req l (attempt + 1)
                     (callIdx + 1)).calls,
             2 ^ attempt * 1000
               :: (retryGo parse (fun i => .error (err i)) tt ns req l (attempt + 1)
                     (callIdx + 1)).sleeps,
             (retryGo parse (fun i => .error (err i)) tt ns req l (attempt + 1)
                 (callIdx + 1)).outcome⟩ := by
        simp only [retryGo, tryOnce]
        rw [if_neg (by omega)]
      rw [step, ih (attempt + 1) (callIdx + 1) hl]
      simp only [AttemptResult.mk.injEq, Nat.add_sub_cancel]
      refine ⟨by simp [List.replicate_succ], by rw [hsleeps],
        congrArg _ (congrArg err (by omega))⟩

/-- C5 amended: with `retries = k ≥ 1` and an always-failing transport the
orchestrator makes exactly k attempts, sleeps 1000, 2000, ..,
2^(k-2)*1000 ms between them, and surfaces the error of the last attempt;
`retries = 0` is NOT one attempt — the counterexample shows the `|| 3`
fallback makes it three. -/
theorem C5_retry_count (parse : List Nat → Except String DnsResponseM)
    (err : Nat → String) (tt : TransportType) (ns : String) (req : List Nat)
    (k : Nat) (hk : 1 ≤ k) :
    queryOnce parse (fun i => .error (err i)) tt ns req k =
      ⟨List.replicate k ⟨tt, ns, req⟩,
       (List.range (k - 1)).map (fun a => 2 ^ a * 1000),
       .error (err (k - 1))⟩ := by
  unfold queryOnce
  rw [if_neg (by omega)]
  rw [retryGo_always_fails parse err tt ns req k 0 0 hk]
  simp

/-- C5 witness: two failing attempts, one 1000 ms backoff, last error out. -/
theorem C5_retry_count_witness :
    queryOnce noParse (fun _ => .error "boom") TransportType.udp "ns" [] 2 =
      ⟨[⟨TransportType.udp, "ns", []⟩, ⟨TransportType.udp, "ns", []⟩],
       [1000], .error "boom"⟩ :=
  C5_retry_count noParse (fun _ => "boom") TransportType.udp "ns" [] 2 (by omega)

/-- C5 counterexample: with `retries = 0` the client performs three
attempts (`retries || 3` treats 0 as unset), not the single attempt the
claim requires. -/
theorem C5_counterexample :
    (queryOnce noParse failScript TransportType.udp "1.1.1.1" [] 0).calls.length = 3
    ∧ (3 : Nat) ≠ 1 :=
  ⟨rfl, by decide⟩

/-! ### Query product facts (C6) -/

theorem runAll_map (qres : DnsQueryM → Except String DnsResponseM)
    (f : DnsQueryM → DnsResponseM) (hq : ∀ q, qres q = .ok (f q)) :
    ∀ qs, runAll qres qs = .ok (qs.map f) := by
  intro qs
  induction qs with
  | nil => rfl
  | cons q rest ih => simp only [runAll, hq q, ih, List.map_cons]

/-- C6 amended: the built queries are the cartesian product
domains × types × classes in declaration order, the response list mirrors
that order element by element, and the `[A]` / `[IN]` defaults apply
exactly when the corresponding option is absent — an explicitly empty list
is used as-is. -/
theorem C6_product_order (o : DnsOptionsM) (hne : o.domains ≠ [])
    (qres : DnsQueryM → Except String DnsResponseM) (f : DnsQueryM → DnsResponseM)
    (hq : ∀ q, qres q = .ok (f q)) :
    buildQueries o = .ok (queryProduct o.domains (resolveTypes o) (resolveClasses o))
    ∧ runAll qres (queryProduct o.domains (resolveTypes o) (resolveClasses o))
        = .ok ((queryProduct o.domains (resolveTypes o) (resolveClasses o)).map f)
    ∧ (o.rtype = none → resolveTypes o = [RecordTypeA])
    ∧ (∀ ts, o.rtype = some ts → resolveTypes o = ts)
    ∧ (o.qclass = none → resolveClasses o = [QClassIN])
    ∧ (∀ cs, o.qclass = some cs → resolveClasses o = cs) := by
  refine ⟨?_, runAll_map qres f hq _, ?_, ?_, ?_, ?_⟩
  · unfold buildQueries
    rw [if_neg (by simp [hne])]
  · intro h; simp [resolveTypes, h]
  · intro ts h; simp [resolveTypes, h]
  · intro h; simp [resolveClasses, h]
  · intro cs h; simp [resolveClasses, h]

/-- C6 witness: a single absent-option query maps to the defaulted
product. -/
theorem C6_product_order_witness :
    buildQueries ⟨["a"], none, none⟩ = .ok [⟨"a", RecordTypeA, QClassIN⟩] :=
  (C6_product_order ⟨["a"], none, none⟩ (by simp)
    (fun _ => .ok { id := 0, flags := {} }) (fun _ => { id := 0, flags := {} })
    (fun _ => rfl)).1

/-- C6 counterexample: an explicitly empty type list produces an empty
query product instead of defaulting to `[A]`, so no query for
("example.com", A, IN) is issued. -/
theorem C6_counterexample :
    buildQueries c6opts = .ok []
    ∧ buildQueries c6opts ≠ .ok [⟨"example.com", RecordTypeA, QClassIN⟩] :=
  ⟨rfl, fun h => absurd (Except.ok.inj h) (by decide)⟩

/-! ### Encoder name bounds (C7) -/

theorem writeNameGo_ok_of_short (labels : List (List Nat)) :
    ∀ st : EncState, (∀ l ∈ labels, l.length ≤ 63) →
      (writeNameGo st labels).isOk = true := by
  induction labels with
  | nil => intro st _; rfl
  | cons label rest ih =>
    intro st h
    have hlen : ¬ 63 < label.length := by
      have := h label (by simp)
      omega
    simp only [writeNameGo, if_neg hlen]
    exact ih _ fun l hl => h l (by simp [hl])

theorem writeNameGo_err_of_long (labels : List (List Nat)) :
    ∀ st : EncState, (∃ l ∈ labels, 63 < l.length) →
      (writeNameGo st labels).isOk = false := by
  induction labels with
  | nil => intro st h; simp at h
  | cons label rest ih =>
    intro st h
    by_cases hlen : 63 < label.length
    · simp only [writeNameGo, if_pos hlen]
      rfl
    · simp only [writeNameGo, if_neg hlen]
      refine ih _ ?_
      rcases h with ⟨l, hl, hlong⟩
      rcases List.mem_cons.mp hl with rfl | hmem
      · omega
      · exact ⟨l, hmem, hlong⟩

/-- C7: the encoder rejects any name with a label over 63 octets
("Label too long", the InvalidLabel case) and accepts every name whose
labels are all within bounds — including names whose total encoded form
exceeds 255 octets: the concrete four-label name encodes to 257 octets
with no error, so no InvalidName rejection exists. -/
theorem C7_name_bounds :
    (∀ (st : EncState) (name : List Nat),
      (∀ l ∈ jsSplitDot name, l.length ≤ 63) → (writeName st name).isOk = true)
    ∧ (∀ (st : EncState) (name : List Nat),
      (∃ l ∈ jsSplitDot name, 63 < l.length) → (writeName st name).isOk = false)
    ∧ encodedLen (writeName encInit c7BigName) = some 257
    ∧ 255 < 257 := by
  refine ⟨?_, ?_, ?_, by omega⟩
  · intro st name h
    exact writeNameGo_ok_of_short (jsSplitDot name) st h
  · intro st name h
    exact writeNameGo_err_of_long (jsSplitDot name) st h
  · rfl

/-- C7 witness: a short two-label name is accepted. -/
theorem C7_name_bounds_witness : (writeName encInit [97, 46, 98]).isOk = true :=
  C7_name_bounds.1 encInit [97, 46, 98] (by decide)

/-! ### Transaction id acceptance (C8) -/

/-- C8: a response whose id (2) differs from the request id (1) is parsed
and returned as the accepted result — no TxIdMismatch rejection happens
anywhere in the acceptance path. -/
theorem C8_txid_not_checked :
    (queryOnce bytesParse c8script TransportType.udp "1.1.1.1" c8req 3).outcome
      = .ok (some { id := 2, flags := DnsFlags.fromBuffer1 (c8resp.drop 2) })
    ∧ c8req.getD 0 0 * 256 + c8req.getD 1 0 = 1
    ∧ (2 : Nat) ≠ 1 :=
  ⟨rfl, rfl, by decide⟩

/-! ### Truncation fallback (C4) -/

/-- C4: when the UDP attempt yields a response that passes the raw checks
and parses with TC set, the orchestrator performs exactly one extra TCP
call, carrying the identical request bytes to the same nameserver, and the
accepted result is the parsed TCP response — the truncated UDP response is
discarded.  No sleep happens and the retry loop ends at that attempt. -/
theorem C4_truncation_fallback (parse : List Nat → Except String DnsResponseM)
    (script : Nat → Except String (List Nat)) (ns : String) (request : List Nat)
    (retries : Nat) (udpResp tcpResp : List Nat) (r r2 : DnsResponseM)
    (hu : script 0 = .ok udpResp) (hlen : 12 ≤ udpResp.length)
    (hqr : (udpResp.getD 2 0 * 256 + udpResp.getD 3 0) &&& 0x8000 ≠ 0)
    (hp : parse udpResp = .ok r) (htc : r.flags.truncated = true)
    (ht : script 1 = .ok tcpResp) (hp2 : parse tcpResp = .ok r2) :
    queryOnce parse script TransportType.udp ns request retries =
      ⟨[⟨TransportType.udp, ns, request⟩, ⟨TransportType.tcp, ns, request⟩], [],
       .ok (some r2)⟩ := by
  have htry : tryOnce parse script TransportType.udp ns request 0 =
      ⟨[⟨TransportType.udp, ns, request⟩, ⟨TransportType.tcp, ns, request⟩], 2, .ok r2⟩ := by
    simp only [tryOnce, Nat.zero_add, hu, hp, ht, hp2]
    rw [if_neg (by omega), if_neg hqr, if_pos ⟨trivial, htc⟩]
  unfold queryOnce
  obtain ⟨m, hm⟩ : ∃ m, (if retries = 0 then 3 else retries) = m + 1 := by
    rcases retries with _ | n
    · exact ⟨2, rfl⟩
    · exact ⟨n, rfl⟩
  rw [hm]
  simp only [retryGo, htry]

/-- C4 witness: the concrete truncated-then-clean script ends with the
parsed TCP response and the two expected transport calls. -/
theorem C4_truncation_fallback_witness :
    queryOnce bytesParse c4script TransportType.udp "1.1.1.1" c8req 3 =
      ⟨[⟨TransportType.udp, "1.1.1.1", c8req⟩, ⟨TransportType.tcp, "1.1.1.1", c8req⟩], [],
       .ok (some { id := 7, flags := DnsFlags.fromBuffer1 (c4tcpResp.drop 2) })⟩ :=
  C4_truncation_fallback bytesParse c4script "1.1.1.1" c8req 3 c4udpResp c4tcpResp
    { id := 7, flags := DnsFlags.fromBuffer1 (c4udpResp.drop 2) }
    { id := 7, flags := DnsFlags.fromBuffer1 (c4tcpResp.drop 2) }
    rfl (by decide) (by decide) rfl (by decide) rfl rfl

/-! ### Encoder and parse composition (C10) -/

theorem getD_set_ne (l : List Nat) (i j a : Nat) (h : i ≠ j) :
    (l.set i a).getD j 0 = l.getD j 0 := by
  simp [List.getD_eq_getElem?_getD, List.getElem?_set_ne h]

theorem getD_set_self (l : List Nat) (i a : Nat) (h : i < l.length) :
    (l.set i a).getD i 0 = a := by
  simp [List.getD_eq_getElem?_getD, List.getElem?_set_self h]

theorem getD_set_eq (l : List Nat) (i j a : Nat) (hij : i = j) (h : i < l.length) :
    (l.set i a).getD j 0 = a := by
  subst hij
  exact getD_set_self l i a h

theorem getD_take (l : List Nat) (i n : Nat) (h : i < n) :
    (l.take n).getD i 0 = l.getD i 0 := by
  simp [List.getD_eq_getElem?_getD, List.getElem?_take_of_lt h]

theorem writeAt_length (s : List Nat) : ∀ (buf : List Nat) (o : Nat),
    (writeAt buf o s).length = buf.length := by
  induction s with
  | nil => intro buf o; rfl
  | cons c cs ih => intro buf o; rw [writeAt, ih, List.length_set]

theorem writeAt_getD_lt (s : List Nat) : ∀ (buf : List Nat) (o i : Nat), i < o →
    (writeAt buf o s).getD i 0 = buf.getD i 0 := by
  induction s with
  | nil => intro buf o i _; rfl
  | cons c cs ih =>
    intro buf o i h
    rw [writeAt, ih _ _ _ (by omega), getD_set_ne _ _ _ _ (by omega)]

theorem writeAt_pair (buf : List Nat) (i a c : Nat) :
    writeAt buf i [a, c] = (buf.set i a).set (i + 1) c := rfl

/-- `writeNameGo` only grows the cursor (by at least the terminal zero) and
only touches bytes at or after the starting cursor. -/
theorem writeNameGo_props (labels : List (List Nat)) :
    ∀ st st' : EncState, writeNameGo st labels = .ok st' →
      st.offset + 1 ≤ st'.offset ∧ st'.buf.length = st.buf.length
      ∧ ∀ i, i < st.offset → st'.buf.getD i 0 = st.buf.getD i 0 := by
  induction labels with
  | nil =>
    intro st st' h
    have hst : st' = setByte st 0 := (Except.ok.inj h).symm
    subst hst
    refine ⟨by simp [setByte], by simp [setByte], ?_⟩
    intro i hi
    exact getD_set_ne _ _ _ _ (by omega)
  | cons label rest ih =>
    intro st st' h
    by_cases hl : 63 < label.length
    · rw [writeNameGo, if_pos hl] at h
      exact absurd h (by simp)
    · rw [writeNameGo, if_neg hl] at h
      obtain ⟨h1, h2, h3⟩ := ih _ st' h
      refine ⟨by simp at h1 ⊢; omega, ?_, ?_⟩
      · rw [h2]
        simp [writeAt_length]
      · intro i hi
        rw [h3 i (by simp; omega)]
        simp only []
        rw [writeAt_getD_lt _ _ _ _ (by omega), getD_set_ne _ _ _ _ (by omega)]

theorem writeUint16E_ok {st st' : EncState} {v : Nat} (h : writeUint16E st v = .ok st') :
    v < 65536 ∧ st.offset + 2 ≤ st.buf.length
    ∧ st' = ⟨(st.buf.set st.offset (v / 256)).set (st.offset + 1) (v % 256),
             st.offset + 2⟩ := by
  unfold writeUint16E at h
  split at h
  · next hc => exact ⟨hc.1, hc.2, (Except.ok.inj h).symm⟩
  · exact absurd h (by simp)

theorem setFlagsBuf_ok {st st' : EncState} {src : List Nat}
    (h : setFlagsBuf st src = .ok st') :
    st.offset + src.length ≤ st.buf.length
    ∧ st' = ⟨writeAt st.buf st.offset src, st.offset + 2⟩ := by
  unfold setFlagsBuf at h
  split at h
  · next hc => exact ⟨hc, (Except.ok.inj h).symm⟩
  · exact absurd h (by simp)

theorem exceptBind_ok {α β : Type} {x : Except String α} {f : α → Except String β} {b : β}
    (h : (x >>= f) = .ok b) : ∃ a, x = .ok a ∧ f a = .ok b := by
  cases x with
  | error e => simp [Bind.bind, Except.bind] at h
  | ok a =>
    refine ⟨a, rfl, ?_⟩
    simpa [Bind.bind, Except.bind] using h

/-- First-draft `parseResponse` rejects any buffer whose third byte has the
QR bit clear. -/
theorem parseResponse1_not_response {b : List Nat} (hlen : 4 ≤ b.length)
    (h2 : b.getD 2 0 = 1) (h3 : b.getD 3 0 = 0) :
    parseResponse1 b = .error "Not a DNS response" := by
  unfold parseResponse1
  rw [if_neg (by omega)]
  simp only [h2, h3]
  rw [if_pos (by decide)]

theorem readHeader2_ok {b : List Nat} (h : 12 ≤ b.length) :
    readHeader2 b = .ok (b.getD 0 0 * 256 + b.getD 1 0,
      DnsFlags.fromBuffer2 ((b.drop 2).take 2),
      b.getD 4 0 * 256 + b.getD 5 0, b.getD 6 0 * 256 + b.getD 7 0,
      b.getD 8 0 * 256 + b.getD 9 0, b.getD 10 0 * 256 + b.getD 11 0) 12 := by
  unfold readHeader2 readUint16_2
  rw [if_neg (by omega), if_pos (by omega)]
  simp only [Res.bind]
  rw [if_pos (by omega)]
  simp only [Res.bind]
  rw [if_pos (by omega)]
  simp only [Res.bind]
  rw [if_pos (by omega)]
  simp only [Res.bind]
  rw [if_pos (by omega)]

/-- The second-draft flag parse of any 2-byte slice leaves `response`
false (its reads at indices 2 and 3 fall out of bounds). -/
theorem fromBuffer2_short {l : List Nat} (h : l.length ≤ 2) :
    (DnsFlags.fromBuffer2 l).response = false := by
  have h2 : l[2]? = none := List.getElem?_eq_none (by omega)
  simp [DnsFlags.fromBuffer2, jsAnd, h2]

/-- Second-draft `parseResponse` rejects every buffer of at least 12 bytes
as `Not a DNS response`, regardless of its QR bit, because `readHeader`
hands `fromBuffer` a 2-byte slice whose bytes 2 and 3 do not exist. -/
theorem parseResponse2_not_response (fuel : Nat) {b : List Nat} (hlen : 12 ≤ b.length) :
    parseResponse2 fuel b = .err "Not a DNS response" := by
  unfold parseResponse2
  rw [readHeader2_ok hlen]
  simp only [Res.bind]
  rw [if_pos (fromBuffer2_short (by simp))]

/-- C10: every successfully encoded query has its QR bit clear, so the
public decode entry point rejects it: the first-draft `parseResponse`
throws `Not a DNS response` on the encoder output, and the second-draft
`parseResponse` does so for any fuel; the second-draft `buildQuery`
produces the identical bytes. -/
theorem C10_encode_parse_never_compose (name : List Nat) (qtype qclass id : Nat)
    (b : List Nat) (h : buildQuery1 name qtype qclass id = .ok b) :
    buildQuery2 name qtype qclass id = .ok b
    ∧ b.getD 2 0 &&& 0x80 = 0
    ∧ parseResponse1 b = .error "Not a DNS response"
    ∧ (∀ fuel, parseResponse2 fuel b = Res.err "Not a DNS response") := by
  have horig := h
  have hbq2 : buildQuery2 name qtype qclass id = buildQuery1 name qtype qclass id := rfl
  unfold buildQuery1 at h
  obtain ⟨st1, h1, h⟩ := exceptBind_ok h
  obtain ⟨st2, h2, h⟩ := exceptBind_ok h
  obtain ⟨st3, h3, h⟩ := exceptBind_ok h
  obtain ⟨st4, h4, h⟩ := exceptBind_ok h
  obtain ⟨st5, h5, h⟩ := exceptBind_ok h
  obtain ⟨st6, h6, h⟩ := exceptBind_ok h
  obtain ⟨st7, h7, h⟩ := exceptBind_ok h
  obtain ⟨st8, h8, h⟩ := exceptBind_ok h
  obtain ⟨st9, h9, h⟩ := exceptBind_ok h
  have hb : b = st9.buf.take st9.offset := by
    simpa [Pure.pure, Except.pure] using h.symm
  obtain ⟨-, hsp1, hst1⟩ := writeUint16E_ok h1
  obtain ⟨hsp2, hst2⟩ := setFlagsBuf_ok h2
  obtain ⟨-, hsp3, hst3⟩ := writeUint16E_ok h3
  obtain ⟨-, hsp4, hst4⟩ := writeUint16E_ok h4
  obtain ⟨-, hsp5, hst5⟩ := writeUint16E_ok h5
  obtain ⟨-, hsp6, hst6⟩ := writeUint16E_ok h6
  obtain ⟨hoff7, hlen7, hpre7⟩ := writeNameGo_props (jsSplitDot name) st6 st7 h7
  obtain ⟨-, hsp8, hst8⟩ := writeUint16E_ok h8
  obtain ⟨-, hsp9, hst9⟩ := writeUint16E_ok h9
  have hF : DnsFlags.toBuffer1 queryFlags = [1, 0] := rfl
  have ho6 : st6.offset = 12 := by
    simp only [hst6, hst5, hst4, hst3, hst2, hst1, encInit]
  have hl6 : st6.buf.length = 512 := by
    simp only [hst6, hst5, hst4, hst3, hst2, hst1, encInit, writeAt_length,
      List.length_set, List.length_replicate]
  have hg2 : st6.buf.getD 2 0 = 1 := by
    simp only [hst6, hst5, hst4, hst3, hst2, hst1, encInit]
    rw [getD_set_ne _ _ _ _ (by omega), getD_set_ne _ _ _ _ (by omega),
      getD_set_ne _ _ _ _ (by omega), getD_set_ne _ _ _ _ (by omega),
      getD_set_ne _ _ _ _ (by omega), getD_set_ne _ _ _ _ (by omega),
      getD_set_ne _ _ _ _ (by omega), getD_set_ne _ _ _ _ (by omega),
      hF, writeAt_pair, getD_set_ne _ _ _ _ (by omega)]
    rw [getD_set_eq _ _ _ _ (by omega)
      (by simp only [List.length_set, List.length_replicate]; omega)]
  have hg3 : st6.buf.getD 3 0 = 0 := by
    simp only [hst6, hst5, hst4, hst3, hst2, hst1, encInit]
    rw [getD_set_ne _ _ _ _ (by omega), getD_set_ne _ _ _ _ (by omega),
      getD_set_ne _ _ _ _ (by omega), getD_set_ne _ _ _ _ (by omega),
      getD_set_ne _ _ _ _ (by omega), getD_set_ne _ _ _ _ (by omega),
      getD_set_ne _ _ _ _ (by omega), getD_set_ne _ _ _ _ (by omega),
      hF, writeAt_pair]
    rw [getD_set_eq _ _ _ _ (by omega)
      (by simp only [List.length_set, List.length_replicate]; omega)]
  have ho7 : 13 ≤ st7.offset := by omega
  have hl7 : st7.buf.length = 512 := by rw [hlen7, hl6]
  have hp2 : st7.buf.getD 2 0 = 1 := by
    rw [hpre7 2 (by omega), hg2]
  have hp3 : st7.buf.getD 3 0 = 0 := by
    rw [hpre7 3 (by omega), hg3]
  have ho8 : st8.offset = st7.offset + 2 := by rw [hst8]
  have ho9 : st9.offset = st7.offset + 4 := by
    rw [hst9]
    simp only []
    omega
  have hl9 : st9.buf.length = 512 := by
    rw [hst9]
    simp only [List.length_set]
    rw [hst8]
    simp only [List.length_set]
    exact hl7
  have hfits : st9.offset ≤ 512 := by
    have h9f := hsp9
    rw [hst8] at h9f
    simp only [List.length_set] at h9f
    omega
  have hblen : b.length = st9.offset := by
    rw [hb, List.length_take, hl9]
    omega
  have hb2 : b.getD 2 0 = 1 := by
    rw [hb, getD_take _ _ _ (by omega), hst9]
    simp only []
    rw [getD_set_ne _ _ _ _ (by omega), getD_set_ne _ _ _ _ (by omega), hst8]
    simp only []
    rw [getD_set_ne _ _ _ _ (by omega), getD_set_ne _ _ _ _ (by omega)]
    exact hp2
  have hb3 : b.getD 3 0 = 0 := by
    rw [hb, getD_take _ _ _ (by omega), hst9]
    simp only []
    rw [getD_set_ne _ _ _ _ (by omega), getD_set_ne _ _ _ _ (by omega), hst8]
    simp only []
    rw [getD_set_ne _ _ _ _ (by omega), getD_set_ne _ _ _ _ (by omega)]
    exact hp3
  refine ⟨hbq2.trans horig, ?_, ?_, ?_⟩
  · rw [hb2]
    decide
  · exact parseResponse1_not_response (by omega) hb2 hb3
  · intro fuel
    exact parseResponse2_not_response fuel (by omega)

set_option maxRecDepth 4000 in
/-- C10 witness: the concrete query for "ab"/A/IN with txid 7 encodes
identically under both drafts and is rejected by both parsers. -/
theorem C10_encode_parse_never_compose_witness :
    buildQuery2 [97, 98] 1 1 7 = .ok c10buf
    ∧ c10buf.getD 2 0 &&& 0x80 = 0
    ∧ parseResponse1 c10buf = .error "Not a DNS response"
    ∧ (∀ fuel, parseResponse2 fuel c10buf = Res.err "Not a DNS response") :=
  C10_encode_parse_never_compose [97, 98] 1 1 7 c10buf (by rfl)
